import Mathlib

/-!
Shallow embedding of JFetch (src/include/jfetch.hpp and src/examples) and
proofs about it.  JFetch is a header-only C++ helper for calling JSON HTTP
APIs: `JFetch<T>::fetch` builds a URL with query parameters, merges global
and per-call headers, selects a body, looks the endpoint up in
`endpoint_lookup`, performs the HTTP call through libcurl
(`HttpClient::perform_request`), parses the response body as JSON and applies
the registered parsing lambda.  Exceptions are modelled with `Except`;
the behaviour of the external libraries (libcurl, nlohmann JSON) is passed in
as explicit oracles, since the repository only configures and invokes them.
-/

/-- HTTP request methods, from `enum class RequestMethod` in jfetch.hpp
(lines 25-31).  The C++ enumerator for DELETE is spelled `DEL`. -/
inductive RequestMethod where
  | GET
  | POST
  | PUT
  | DEL
  | PATCH
deriving DecidableEq, Repr

/-- Model of nlohmann JSON values, as far as the repository's parsing lambdas
inspect them. -/
inductive Json where
  | null
  | bool (b : Bool)
  | num (n : Int)
  | str (s : String)
  | arr (elems : List Json)
  | obj (fields : List (String × Json))
deriving Repr

/-- nlohmann `empty()`: true for null and for arrays/objects of size 0. -/
def Json.isEmpty : Json → Bool
  | .null => true
  | .arr l => l.isEmpty
  | .obj l => l.isEmpty
  | _ => false

/-- nlohmann `operator[](index)` on an array (as used under a non-emptiness
guard in cat_image.cpp). -/
def Json.atIdx : Json → Nat → Json
  | .arr l, i => l.getD i .null
  | _, _ => .null

/-- nlohmann `contains(key)`. -/
def Json.containsField : Json → String → Bool
  | .obj fs, k => fs.any (fun f => f.1 == k)
  | _, _ => false

/-- nlohmann `operator[](key)` on an object (as used under a `contains`
guard). -/
def Json.getField : Json → String → Json
  | .obj fs, k => (((fs.find? (fun f => f.1 == k)).map (fun f => f.2)).getD .null)
  | _, _ => .null

/-- nlohmann `get<std::string>()` (as used on values known to be strings). -/
def Json.getStr : Json → String
  | .str s => s
  | _ => ""

/-- The JFetch exception hierarchy of jfetch.hpp (lines 36-104).  `base` is a
plain `JFetchException` (thrown for CURL initialization failure); `http` is
`JFetchHTTPException` with its `status_code_` field; `parsing` is
`JFetchParsingException`; `endpointNotFound` is
`JFetchEndpointNotFoundException` carrying the requested endpoint id. -/
inductive JFetchError where
  | base (message : String)
  | http (status_code : Int) (message : String)
  | parsing (message : String)
  | endpointNotFound (endpoint : String)
deriving DecidableEq, Repr

/-- The `what()` string of each exception, mirroring the message each C++
constructor builds and passes to `JFetchException`. -/
def JFetchError.what : JFetchError → String
  | .base m => m
  | .http st m => "HTTP Error: " ++ m ++ " (Status Code: " ++ toString st ++ ")"
  | .parsing m => "Parsing Error: " ++ m
  | .endpointNotFound e => "Endpoint \"" ++ e ++ "\" not found in lookup table."

/-- Everything a fetch call can throw: one of the JFetch exception classes, or
the JSON library's `parse_error` escaping from `nlohmann::json::parse` at
jfetch.hpp line 259 (that class derives from `nlohmann::detail::exception`,
not from `JFetchException`). -/
inductive Thrown where
  | jfetch (e : JFetchError)
  | jsonParseError (message : String)
deriving DecidableEq, Repr

/-- Whether a `catch (const jfetch::JFetchException&)` handler catches the
thrown object: true exactly for the classes deriving from
`JFetchException`. -/
def Thrown.caughtByJFetchBase : Thrown → Bool
  | .jfetch _ => true
  | .jsonParseError _ => false

/-- The five error kinds of the taxonomy, one per distinct dynamic type a
fetch call can throw. -/
inductive ErrKind where
  | base
  | http
  | parsing
  | endpointNotFound
  | jsonSyntax
deriving DecidableEq, Repr

/-- The kind (dynamic type) of a thrown object. -/
def Thrown.kind : Thrown → ErrKind
  | .jfetch (.base _) => .base
  | .jfetch (.http _ _) => .http
  | .jfetch (.parsing _) => .parsing
  | .jfetch (.endpointNotFound _) => .endpointNotFound
  | .jsonParseError _ => .jsonSyntax

/-- The request descriptor handed to `HttpClient` (jfetch.hpp lines 118-122):
url, method, headers, body. -/
structure Request where
  url : String
  method : RequestMethod
  headers : List String
  body : String
deriving DecidableEq, Repr

/-- `HttpClient::method_to_string` (jfetch.hpp lines 180-189). -/
def method_to_string : RequestMethod → String
  | .GET => "GET"
  | .POST => "POST"
  | .PUT => "PUT"
  | .DEL => "DELETE"
  | .PATCH => "PATCH"

/-- What `perform_request` configures on the curl handle before
`curl_easy_perform` (jfetch.hpp lines 135-153): URL, custom request string,
headers, and `CURLOPT_POSTFIELDS` set only when the body is non-empty and the
method is POST, PUT or PATCH. -/
structure OutboundCall where
  url : String
  methodString : String
  headers : List String
  attachedBody : Option String
deriving DecidableEq, Repr

/-- The outbound call built from a request, following jfetch.hpp lines
135-153. -/
def outboundCall (req : Request) : OutboundCall :=
  { url := req.url
    methodString := method_to_string req.method
    headers := req.headers
    attachedBody :=
      if ¬ req.body.isEmpty ∧
          (req.method = .POST ∨ req.method = .PUT ∨ req.method = .PATCH)
      then some req.body
      else none }

/-- Environment behaviour of libcurl for one `perform_request` call:
`curl_easy_init` may return null (`initFail`); `curl_easy_perform` may return
a code other than `CURLE_OK` together with whatever status
`CURLINFO_RESPONSE_CODE` reports and the `curl_easy_strerror` text
(`curlError`); or the round-trip completes (`CURLE_OK`) with a status code
and a buffered response body (`done`). -/
inductive CurlOutcome where
  | initFail
  | curlError (status : Int) (strerror : String)
  | done (status : Int) (responseBody : String)
deriving DecidableEq, Repr

/-- Whether `curl_easy_perform` actually ran, i.e. an outbound network call
was made: false only when initialization failed before it. -/
def CurlOutcome.networkCallMade : CurlOutcome → Bool
  | .initFail => false
  | _ => true

/-- `HttpClient::perform_request` (jfetch.hpp lines 129-169).  On init
failure it throws a plain `JFetchException("Failed to initialize CURL")`; when
`curl_easy_perform` returns a code other than `CURLE_OK` it throws
`JFetchHTTPException(http_status, curl_easy_strerror(res))`; when the status
code of a completed call is outside [200,300) it throws
`JFetchHTTPException(http_status, "Unexpected HTTP status code")`; otherwise
the response body has been written through the write callback. -/
def perform_request (outcome : CurlOutcome) : Except Thrown String :=
  match outcome with
  | .initFail => .error (.jfetch (.base "Failed to initialize CURL"))
  | .curlError status strerror => .error (.jfetch (.http status strerror))
  | .done status body =>
      if status < 200 ∨ 300 ≤ status then
        .error (.jfetch (.http status "Unexpected HTTP status code"))
      else
        .ok body

/-- `std::string::pop_back` (used at jfetch.hpp line 239): removes the last
character. -/
def popBack (s : String) : String := String.mk s.data.dropLast

/-- URL construction from `JFetch::fetch` (jfetch.hpp lines 232-240):
`full_url = get_base() + endpoint`; if the query-parameter map is non-empty,
append `"?"`, then for each pair append `key + "=" + value + "&"`, then
`pop_back()` the trailing separator.  The `unordered_map` is modelled as the
list of its key-value pairs in iteration order. -/
def buildFullUrl (base endpoint : String) (query_params : List (String × String)) : String :=
  let full_url := base ++ endpoint
  if query_params.isEmpty then full_url
  else
    popBack (query_params.foldl (fun acc kv => acc ++ kv.1 ++ "=" ++ kv.2 ++ "&") (full_url ++ "?"))

/-- Header merge from `JFetch::fetch` (jfetch.hpp lines 242-244): start from a
copy of `global_headers` and insert each custom header at the end. -/
def mergeHeaders (global_headers custom_headers : List String) : List String :=
  custom_headers.foldl (fun acc h => acc ++ [h]) global_headers

/-- Body selection (jfetch.hpp line 247):
`custom_body.empty() ? get_body() : custom_body`. -/
def selectBody (custom_body default_body : String) : String :=
  if custom_body.isEmpty then default_body else custom_body

/-- `endpoint_lookup.find(endpoint)` / `endpoint_lookup.at(endpoint)`
(jfetch.hpp lines 250-254) on the table modelled as an association list:
exact-string match on the key.  The value is the registered
(method, parsing lambda) pair; the lambda may throw, modelled with
`Except`. -/
def lookupFind {T : Type} (tbl : List (String × RequestMethod × (Json → Except Thrown T))) (endpoint : String) : Option (RequestMethod × (Json → Except Thrown T)) :=
  match tbl with
  | [] => none
  | (k, v) :: rest => if k = endpoint then some v else lookupFind rest endpoint

/-- The state of a `JFetch<T>` instance: the virtual `get_base()` and
`get_body()` results (the base-class default for `get_body()` is `""`,
jfetch.hpp line 281), the endpoint lookup table, and the global headers. -/
structure JFetchClient (T : Type) where
  get_base : String
  get_body : String
  endpoint_lookup : List (String × RequestMethod × (Json → Except Thrown T))
  global_headers : List String

/-- Observable outcome of one `JFetch<T>::fetch` call: the returned value or
thrown object, the `HttpClient` request descriptor if one was constructed,
whether an outbound network call was made, and whether the registered parsing
lambda was invoked. -/
structure FetchTrace (T : Type) where
  result : Except Thrown T
  request : Option Request
  networkCallMade : Bool
  parserInvoked : Bool

/-- `JFetch<T>::fetch` (jfetch.hpp lines 226-261), step by step: build the
full URL with query parameters, concatenate global and custom headers, select
the body, throw `JFetchEndpointNotFoundException` if the endpoint is not in
the lookup table, construct the `HttpClient` and perform the request, parse
the raw body with `nlohmann::json::parse`, and apply the registered lambda.
`transport` is the environment behaviour of libcurl for the constructed
request; `json_parse` is the behaviour of `nlohmann::json::parse` on the raw
body, whose failure is the library's `parse_error`. -/
def fetch {T : Type} (client : JFetchClient T)
    (transport : Request → CurlOutcome)
    (json_parse : String → Except String Json)
    (endpoint : String)
    (query_params : List (String × String))
    (custom_headers : List String)
    (custom_body : String) : FetchTrace T :=
  let full_url := buildFullUrl client.get_base endpoint query_params
  let headers := mergeHeaders client.global_headers custom_headers
  let body := selectBody custom_body client.get_body
  match lookupFind client.endpoint_lookup endpoint with
  | none =>
      { result := .error (.jfetch (.endpointNotFound endpoint))
        request := none
        networkCallMade := false
        parserInvoked := false }
  | some (method, lambda) =>
      let req : Request := ⟨full_url, method, headers, body⟩
      let outcome := transport req
      match perform_request outcome with
      | .error e =>
          { result := .error e
            request := some req
            networkCallMade := outcome.networkCallMade
            parserInvoked := false }
      | .ok raw_json =>
          match json_parse raw_json with
          | .error msg =>
              { result := .error (.jsonParseError msg)
                request := some req
                networkCallMade := true
                parserInvoked := false }
          | .ok json_data =>
              { result := lambda json_data
                request := some req
                networkCallMade := true
                parserInvoked := true }

/-- The result type of the cat-image example (cat_image.cpp lines 5-7). -/
structure CatImage where
  url : String
deriving DecidableEq, Repr

/-- The parsing lambda registered for "/v1/images/search" in cat_image.cpp
(lines 13-18): if the JSON array is non-empty and its first element contains
"url", return that url; otherwise throw a `JFetchParsingException`. -/
def catImageLambda (json_data : Json) : Except Thrown CatImage :=
  if ¬ json_data.isEmpty ∧ (json_data.atIdx 0).containsField "url" then
    .ok ⟨((json_data.atIdx 0).getField "url").getStr⟩
  else
    .error (.jfetch (.parsing "[ERROR] \x27url\x27 field not found in JSON response."))

/-- The `CatImageFetcher` client of cat_image.cpp: base
"https://api.thecatapi.com", the inherited default body, and a single GET
endpoint. -/
def catImageFetcher : JFetchClient CatImage :=
  { get_base := "https://api.thecatapi.com"
    get_body := ""
    endpoint_lookup := [("/v1/images/search", (.GET, catImageLambda))]
    global_headers := [] }

/-- Spec-side rendering of "query parameters appended as `?k1=v1&k2=v2...`":
join a list of strings with the `&` separator and no trailing separator. -/
def ampJoin : List String → String
  | [] => ""
  | [x] => x
  | x :: y :: rest => x ++ "&" ++ ampJoin (y :: rest)

/-- Spec-side URL formula (spec sections 4.2 and 8): base concatenated with
the endpoint path, then, when the map is non-empty, one `?` followed by the
`k=v` pairs joined by `&` with keys and values taken verbatim; when the map
is empty, nothing is appended. -/
def specUrl (base endpoint : String) (query_params : List (String × String)) : String :=
  base ++ endpoint ++
    (if query_params.isEmpty then ""
     else "?" ++ ampJoin (query_params.map (fun kv => kv.1 ++ "=" ++ kv.2)))

/-- Number of occurrences of the `?` character in a string. -/
def countQuestion (s : String) : Nat := s.data.count '?'

/-- A string free of the `?` character. -/
def noQuestion (s : String) : Prop := countQuestion s = 0

instance (s : String) : Decidable (noQuestion s) := by
  unfold noQuestion
  infer_instance

/-- The concatenation of `key=value&` chunks that the query loop of
`JFetch::fetch` appends, one chunk per pair. -/
def partsConcat : List (String × String) → String
  | [] => ""
  | kv :: rest => kv.1 ++ "=" ++ kv.2 ++ "&" ++ partsConcat rest

theorem queryFold_eq (ps : List (String × String)) (acc : String) :
    ps.foldl (fun acc kv => acc ++ kv.1 ++ "=" ++ kv.2 ++ "&") acc =
      acc ++ partsConcat ps := by
  induction ps generalizing acc with
  | nil => simp [partsConcat]
  | cons kv rest ih =>
      simp only [List.foldl_cons, partsConcat]
      rw [ih]
      simp [String.append_assoc]

theorem partsConcat_eq_ampJoin (ps : List (String × String)) (h : ps ≠ []) :
    partsConcat ps = ampJoin (ps.map (fun kv => kv.1 ++ "=" ++ kv.2)) ++ "&" := by
  induction ps with
  | nil => exact absurd rfl h
  | cons kv rest ih =>
      cases rest with
      | nil => simp [partsConcat, ampJoin, String.append_assoc]
      | cons kv2 rest2 =>
          rw [partsConcat, ih (by simp)]
          simp [ampJoin, String.append_assoc]

theorem popBack_append_amp (s : String) : popBack (s ++ "&") = s := by
  show String.mk ((s ++ "&").data.dropLast) = s
  have h : (s ++ "&").data = s.data ++ ['&'] := rfl
  rw [h, List.dropLast_concat]

theorem buildFullUrl_eq_specUrl (base endpoint : String)
    (ps : List (String × String)) :
    buildFullUrl base endpoint ps = specUrl base endpoint ps := by
  unfold buildFullUrl specUrl
  cases ps with
  | nil => simp
  | cons kv rest =>
      simp only [List.isEmpty_cons, Bool.false_eq_true, if_false]
      rw [queryFold_eq, partsConcat_eq_ampJoin _ (by simp),
        ← String.append_assoc, popBack_append_amp]
      simp [String.append_assoc]

theorem countQuestion_append (a b : String) :
    countQuestion (a ++ b) = countQuestion a + countQuestion b := by
  unfold countQuestion
  show (a.data ++ b.data).count _ = _
  simp [List.count_append]

theorem ampJoin_countQuestion_eq_zero (l : List String)
    (h : ∀ x ∈ l, countQuestion x = 0) : countQuestion (ampJoin l) = 0 := by
  induction l with
  | nil => rfl
  | cons x t ih =>
      cases t with
      | nil => simpa [ampJoin] using h x (by simp)
      | cons y r =>
          have hx : countQuestion x = 0 := h x (by simp)
          have ht : ∀ z ∈ y :: r, countQuestion z = 0 := by
            intro z hz
            exact h z (List.mem_cons_of_mem _ hz)
          have hamp : countQuestion "&" = 0 := rfl
          rw [ampJoin, countQuestion_append, countQuestion_append,
            hx, hamp, ih ht]

theorem mergeHeaders_eq_append (g c : List String) :
    mergeHeaders g c = g ++ c := by
  induction c generalizing g with
  | nil => simp [mergeHeaders]
  | cons h t ih =>
      have hstep : mergeHeaders g (h :: t) = mergeHeaders (g ++ [h]) t := rfl
      rw [hstep, ih]
      simp

theorem lookupFind_mem {T : Type}
    (tbl : List (String × RequestMethod × (Json → Except Thrown T)))
    (ep : String) (v : RequestMethod × (Json → Except Thrown T))
    (h : lookupFind tbl ep = some v) : (ep, v) ∈ tbl := by
  induction tbl with
  | nil => simp [lookupFind] at h
  | cons kv rest ih =>
      obtain ⟨k, w⟩ := kv
      by_cases hk : k = ep
      · subst hk
        simp [lookupFind] at h
        subst h
        exact List.mem_cons_self _ _
      · simp [lookupFind, hk] at h
        exact List.mem_cons_of_mem _ (ih h)

theorem lookupFind_eq_none_iff {T : Type}
    (tbl : List (String × RequestMethod × (Json → Except Thrown T)))
    (ep : String) :
    lookupFind tbl ep = none ↔ ∀ v, (ep, v) ∉ tbl := by
  induction tbl with
  | nil => simp [lookupFind]
  | cons kv rest ih =>
      obtain ⟨k, w⟩ := kv
      unfold lookupFind
      by_cases hk : k = ep
      · subst hk
        rw [if_pos rfl]
        constructor
        · intro hcontra
          exact absurd hcontra (by simp)
        · intro hall
          exact absurd (List.mem_cons_self (k, w) rest) (hall w)
      · rw [if_neg hk, ih]
        constructor
        · intro hall v hv
          rcases List.mem_cons.mp hv with hv | hv
          · exact hk (congrArg Prod.fst hv).symm
          · exact hall v hv
        · intro hall v hv
          exact hall v (List.mem_cons_of_mem _ hv)

theorem lookupFind_of_mem_nodup {T : Type}
    (tbl : List (String × RequestMethod × (Json → Except Thrown T)))
    (ep : String) (v : RequestMethod × (Json → Except Thrown T))
    (hnd : (tbl.map Prod.fst).Nodup) (h : (ep, v) ∈ tbl) :
    lookupFind tbl ep = some v := by
  induction tbl with
  | nil => simp at h
  | cons kv rest ih =>
      obtain ⟨k, w⟩ := kv
      have hmap : List.map Prod.fst ((k, w) :: rest) = k :: rest.map Prod.fst := rfl
      rw [hmap, List.nodup_cons] at hnd
      rcases List.mem_cons.mp h with hv | hv
      · have hk : ep = k := congrArg Prod.fst hv
        have hw : v = w := congrArg Prod.snd hv
        subst hk
        subst hw
        unfold lookupFind
        rw [if_pos rfl]
      · have hk : k ≠ ep := by
          intro hkep
          subst hkep
          exact hnd.1 (List.mem_map.mpr ⟨(k, v), hv, rfl⟩)
        unfold lookupFind
        rw [if_neg hk]
        exact ih hnd.2 hv

theorem fetch_not_found_eq {T : Type} (client : JFetchClient T)
    (transport : Request → CurlOutcome) (json_parse : String → Except String Json)
    (ep : String) (qps : List (String × String)) (chs : List String) (cb : String)
    (hnone : lookupFind client.endpoint_lookup ep = none) :
    fetch client transport json_parse ep qps chs cb =
      { result := .error (.jfetch (.endpointNotFound ep))
        request := none
        networkCallMade := false
        parserInvoked := false } := by
  simp only [fetch, hnone]

theorem fetch_request_eq {T : Type} (client : JFetchClient T)
    (transport : Request → CurlOutcome) (json_parse : String → Except String Json)
    (ep : String) (qps : List (String × String)) (chs : List String) (cb : String)
    (m : RequestMethod) (lambda : Json → Except Thrown T)
    (hreg : lookupFind client.endpoint_lookup ep = some (m, lambda)) :
    (fetch client transport json_parse ep qps chs cb).request =
      some ⟨buildFullUrl client.get_base ep qps, m,
        mergeHeaders client.global_headers chs, selectBody cb client.get_body⟩ := by
  simp only [fetch, hreg]
  split
  · rfl
  · split
    · rfl
    · rfl

theorem fetch_transport_error_eq {T : Type} (client : JFetchClient T)
    (transport : Request → CurlOutcome) (json_parse : String → Except String Json)
    (ep : String) (qps : List (String × String)) (chs : List String) (cb : String)
    (m : RequestMethod) (lambda : Json → Except Thrown T)
    (outcome : CurlOutcome) (e : Thrown)
    (hreg : lookupFind client.endpoint_lookup ep = some (m, lambda))
    (htr : ∀ r, transport r = outcome)
    (he : perform_request outcome = .error e) :
    (fetch client transport json_parse ep qps chs cb).result = .error e ∧
    (fetch client transport json_parse ep qps chs cb).parserInvoked = false ∧
    (fetch client transport json_parse ep qps chs cb).networkCallMade =
      outcome.networkCallMade := by
  simp only [fetch, hreg, htr, he]
  refine ⟨?_, ?_, ?_⟩ <;> trivial

theorem fetch_json_error_eq {T : Type} (client : JFetchClient T)
    (transport : Request → CurlOutcome) (json_parse : String → Except String Json)
    (ep : String) (qps : List (String × String)) (chs : List String) (cb : String)
    (m : RequestMethod) (lambda : Json → Except Thrown T)
    (st : Int) (body msg : String)
    (hreg : lookupFind client.endpoint_lookup ep = some (m, lambda))
    (htr : ∀ r, transport r = CurlOutcome.done st body)
    (h1 : 200 ≤ st) (h2 : st < 300)
    (hjp : json_parse body = .error msg) :
    (fetch client transport json_parse ep qps chs cb).result =
      .error (.jsonParseError msg) ∧
    (fetch client transport json_parse ep qps chs cb).parserInvoked = false := by
  have hcond : ¬(st < 200 ∨ 300 ≤ st) := by omega
  simp only [fetch, hreg, htr, perform_request, if_neg hcond, hjp]
  refine ⟨?_, ?_⟩ <;> trivial

theorem fetch_success_eq {T : Type} (client : JFetchClient T)
    (transport : Request → CurlOutcome) (json_parse : String → Except String Json)
    (ep : String) (qps : List (String × String)) (chs : List String) (cb : String)
    (m : RequestMethod) (lambda : Json → Except Thrown T)
    (st : Int) (body : String) (j : Json)
    (hreg : lookupFind client.endpoint_lookup ep = some (m, lambda))
    (htr : ∀ r, transport r = CurlOutcome.done st body)
    (h1 : 200 ≤ st) (h2 : st < 300)
    (hjp : json_parse body = .ok j) :
    (fetch client transport json_parse ep qps chs cb).result = lambda j ∧
    (fetch client transport json_parse ep qps chs cb).parserInvoked = true := by
  have hcond : ¬(st < 200 ∨ 300 ≤ st) := by omega
  simp only [fetch, hreg, htr, perform_request, if_neg hcond, hjp]
  refine ⟨?_, ?_⟩ <;> trivial

/-- C1 (amended): when the HTTP client cannot be initialized, perform_request
throws the plain base JFetchException carrying "Failed to initialize CURL",
whose kind is distinct from the HTTP-status, parsing, endpoint-not-found and
JSON-syntax kinds; but when the underlying call cannot be completed (network
failure, DNS failure, timeout: `res != CURLE_OK`), perform_request throws a
JFetchHTTPException carrying the underlying transport message — the same
error kind as HTTPStatusError, not a distinct TransportError kind. -/
theorem perform_request_transport_error_kinds (st : Int) (msg : String) :
    (perform_request CurlOutcome.initFail =
        Except.error (Thrown.jfetch (JFetchError.base "Failed to initialize CURL")) ∧
      Thrown.kind (Thrown.jfetch (JFetchError.base "Failed to initialize CURL")) =
        ErrKind.base ∧
      ErrKind.base ≠ ErrKind.http ∧ ErrKind.base ≠ ErrKind.parsing ∧
      ErrKind.base ≠ ErrKind.endpointNotFound ∧ ErrKind.base ≠ ErrKind.jsonSyntax) ∧
    (perform_request (CurlOutcome.curlError st msg) =
        Except.error (Thrown.jfetch (JFetchError.http st msg)) ∧
      Thrown.kind (Thrown.jfetch (JFetchError.http st msg)) = ErrKind.http) :=
  ⟨⟨rfl, rfl, by decide, by decide, by decide, by decide⟩, rfl, rfl⟩

/-- C1 counterexample: at a concrete fetch whose underlying call cannot be
completed (curl reports "Could not resolve host" with no response code), the
raised error is a JFetchHTTPException — its kind is ErrKind.http, the very
HTTPStatusError kind — so no distinct TransportError kind is raised. -/
theorem transport_failure_raises_http_kind :
    (fetch catImageFetcher (fun _ => CurlOutcome.curlError 0 "Could not resolve host")
        (fun _ => Except.error "unreached") "/v1/images/search" [] [] "").result =
      Except.error (Thrown.jfetch (JFetchError.http 0 "Could not resolve host")) ∧
    Thrown.kind (Thrown.jfetch (JFetchError.http 0 "Could not resolve host")) =
      ErrKind.http :=
  ⟨rfl, rfl⟩

/-- C2 (amended): for every response body that is not well-formed JSON, fetch
fails with the JSON library's parse error, raised before the endpoint's
registered parsing lambda is invoked; but unlike the JFetch error kinds
(which all derive from the single base JFetchException), that parse error is
not a subtype of the client's base failure category, so a caller catching
only the base category does not catch it. -/
theorem fetch_malformed_json_before_lambda {T : Type} (client : JFetchClient T)
    (transport : Request → CurlOutcome) (json_parse : String → Except String Json)
    (ep : String) (qps : List (String × String)) (chs : List String) (cb : String)
    (m : RequestMethod) (lambda : Json → Except Thrown T)
    (st : Int) (body msg : String)
    (hreg : lookupFind client.endpoint_lookup ep = some (m, lambda))
    (htr : ∀ r, transport r = CurlOutcome.done st body)
    (h1 : 200 ≤ st) (h2 : st < 300)
    (hjp : json_parse body = .error msg) :
    (fetch client transport json_parse ep qps chs cb).result =
      Except.error (Thrown.jsonParseError msg) ∧
    (fetch client transport json_parse ep qps chs cb).parserInvoked = false ∧
    Thrown.caughtByJFetchBase (Thrown.jsonParseError msg) = false ∧
    (∀ e : JFetchError, Thrown.caughtByJFetchBase (Thrown.jfetch e) = true) := by
  obtain ⟨hres, hinv⟩ :=
    fetch_json_error_eq client transport json_parse ep qps chs cb m lambda
      st body msg hreg htr h1 h2 hjp
  exact ⟨hres, hinv, rfl, fun e => rfl⟩

/-- C2 witness: the amended theorem applied to the cat-image client with a
2xx response whose body the JSON library rejects. -/
theorem fetch_malformed_json_witness :
    (fetch catImageFetcher (fun _ => CurlOutcome.done 200 "not-json")
        (fun _ => Except.error "syntax error while parsing value")
        "/v1/images/search" [] [] "").result =
      Except.error (Thrown.jsonParseError "syntax error while parsing value") :=
  (fetch_malformed_json_before_lambda catImageFetcher
    (fun _ => CurlOutcome.done 200 "not-json")
    (fun _ => Except.error "syntax error while parsing value")
    "/v1/images/search" [] [] "" RequestMethod.GET catImageLambda
    200 "not-json" "syntax error while parsing value"
    rfl (fun _ => rfl) (by decide) (by decide) rfl).1

/-- C2 counterexample: at a concrete fetch with a malformed 2xx response body,
the thrown object is the JSON library's parse error, and a handler for the
base JFetchException category does not catch it — refuting the claim that the
JSON syntax error is a subtype of the client's single base failure
category. -/
theorem json_error_escapes_base_handler :
    (fetch catImageFetcher (fun _ => CurlOutcome.done 200 "not-json")
        (fun _ => Except.error "syntax error at byte 1")
        "/v1/images/search" [] [] "").result =
      Except.error (Thrown.jsonParseError "syntax error at byte 1") ∧
    Thrown.caughtByJFetchBase (Thrown.jsonParseError "syntax error at byte 1") =
      false :=
  ⟨rfl, rfl⟩

/-- C3: for every completed HTTP round-trip, a status code in [200,300) never
throws (perform_request returns the response body), and every status code
outside [200,300) throws JFetchHTTPException carrying exactly that status
code. -/
theorem perform_request_status_classification (status : Int) (body : String) :
    (200 ≤ status → status < 300 →
      perform_request (CurlOutcome.done status body) = Except.ok body) ∧
    (status < 200 ∨ 300 ≤ status →
      perform_request (CurlOutcome.done status body) =
        Except.error
          (Thrown.jfetch (JFetchError.http status "Unexpected HTTP status code"))) := by
  have hred : perform_request (CurlOutcome.done status body) =
      if status < 200 ∨ 300 ≤ status then
        Except.error
          (Thrown.jfetch (JFetchError.http status "Unexpected HTTP status code"))
      else Except.ok body := rfl
  constructor
  · intro h1 h2
    rw [hred, if_neg (by omega)]
  · intro h
    rw [hred, if_pos h]

/-- C3 witness: status 204 succeeds with the body; status 404 throws the
HTTP-status exception carrying 404. -/
theorem perform_request_status_witness :
    perform_request (CurlOutcome.done 204 "resp") = Except.ok "resp" ∧
    perform_request (CurlOutcome.done 404 "resp") =
      Except.error
        (Thrown.jfetch (JFetchError.http 404 "Unexpected HTTP status code")) :=
  ⟨(perform_request_status_classification 204 "resp").1 (by decide) (by decide),
   (perform_request_status_classification 404 "resp").2 (by decide)⟩

/-- C4: for an endpoint id present in the lookup table (whose keys are
unique), fetch uses exactly the registered (method, lambda) pair found by
exact-string match: the constructed request carries the registered method and
a successful round-trip returns the registered lambda's value; for an id
absent from the table, fetch throws JFetchEndpointNotFoundException carrying
the requested endpoint id. -/
theorem fetch_endpoint_dispatch {T : Type} (client : JFetchClient T)
    (transport : Request → CurlOutcome) (json_parse : String → Except String Json)
    (ep : String) (qps : List (String × String)) (chs : List String) (cb : String) :
    (∀ m lambda, (client.endpoint_lookup.map Prod.fst).Nodup →
      (ep, (m, lambda)) ∈ client.endpoint_lookup →
      lookupFind client.endpoint_lookup ep = some (m, lambda) ∧
      (∀ r, (fetch client transport json_parse ep qps chs cb).request = some r →
        r.method = m) ∧
      (∀ st body j, (∀ r, transport r = CurlOutcome.done st body) →
        200 ≤ st → st < 300 → json_parse body = Except.ok j →
        (fetch client transport json_parse ep qps chs cb).result = lambda j)) ∧
    ((∀ v, (ep, v) ∉ client.endpoint_lookup) →
      (fetch client transport json_parse ep qps chs cb).result =
        Except.error (Thrown.jfetch (JFetchError.endpointNotFound ep))) := by
  constructor
  · intro m lambda hnd hmem
    have hreg := lookupFind_of_mem_nodup client.endpoint_lookup ep (m, lambda) hnd hmem
    refine ⟨hreg, ?_, ?_⟩
    · intro r hr
      rw [fetch_request_eq client transport json_parse ep qps chs cb m lambda hreg] at hr
      injection hr with hr2
      rw [← hr2]
    · intro st body j htr h1 h2 hjp
      exact (fetch_success_eq client transport json_parse ep qps chs cb m lambda
        st body j hreg htr h1 h2 hjp).1
  · intro habs
    have hnone := (lookupFind_eq_none_iff client.endpoint_lookup ep).mpr habs
    rw [fetch_not_found_eq client transport json_parse ep qps chs cb hnone]

/-- C4 witness: the dispatch theorem applied to the cat-image client at its
registered endpoint. -/
theorem fetch_endpoint_dispatch_witness :
    lookupFind catImageFetcher.endpoint_lookup "/v1/images/search" =
      some (RequestMethod.GET, catImageLambda) :=
  ((fetch_endpoint_dispatch catImageFetcher (fun _ => CurlOutcome.done 200 "[]")
      (fun _ => Except.ok (Json.arr [])) "/v1/images/search" [] [] "").1
    RequestMethod.GET catImageLambda (by simp [catImageFetcher])
    (List.mem_cons_self _ _)).1

/-- C5 (amended): the URL built by JFetch::fetch equals the base concatenated
with the endpoint path, and when the query-parameter map is non-empty exactly
one appended `?` followed by the `k=v` pairs joined by `&`, with no trailing
separator and keys and values taken verbatim; when the map is empty no `?` is
appended; the full URL contains exactly one `?` provided the base, endpoint,
keys and values contain no `?` themselves (being taken verbatim, a `?` inside
any of them also lands in the URL). -/
theorem buildFullUrl_characterization (base endpoint : String)
    (ps : List (String × String)) :
    buildFullUrl base endpoint ps = specUrl base endpoint ps ∧
    (ps = [] → buildFullUrl base endpoint ps = base ++ endpoint) ∧
    (ps ≠ [] → noQuestion base → noQuestion endpoint →
      (∀ kv ∈ ps, noQuestion kv.1 ∧ noQuestion kv.2) →
      countQuestion (buildFullUrl base endpoint ps) = 1) := by
  refine ⟨buildFullUrl_eq_specUrl base endpoint ps, ?_, ?_⟩
  · intro hps
    subst hps
    rfl
  · intro hne hb he hkv
    rw [buildFullUrl_eq_specUrl]
    unfold specUrl
    have hpse : ps.isEmpty = false := by
      cases ps with
      | nil => exact absurd rfl hne
      | cons a l => rfl
    rw [hpse]
    simp only [Bool.false_eq_true, if_false]
    have hparts : ∀ x ∈ ps.map (fun kv => kv.1 ++ "=" ++ kv.2),
        countQuestion x = 0 := by
      intro x hx
      obtain ⟨kv, hkvmem, rfl⟩ := List.mem_map.mp hx
      have hk : countQuestion kv.1 = 0 := (hkv kv hkvmem).1
      have hv : countQuestion kv.2 = 0 := (hkv kv hkvmem).2
      have heq : countQuestion "=" = 0 := rfl
      rw [countQuestion_append, countQuestion_append, hk, hv, heq]
    have hb0 : countQuestion base = 0 := hb
    have he0 : countQuestion endpoint = 0 := he
    have hq : countQuestion "?" = 1 := rfl
    rw [countQuestion_append, countQuestion_append, countQuestion_append,
      hb0, he0, hq, ampJoin_countQuestion_eq_zero _ hparts]

/-- C5 witness: the characterization applied to a concrete base, endpoint and
two-parameter map: the built URL contains exactly one `?`. -/
theorem buildFullUrl_characterization_witness :
    countQuestion
      (buildFullUrl "https://api.example" "/v1/search" [("a", "1"), ("b", "2")]) = 1 :=
  (buildFullUrl_characterization "https://api.example" "/v1/search"
      [("a", "1"), ("b", "2")]).2.2
    (by decide) (by decide) (by decide) (by decide)

/-- C5 counterexample: keys and values are taken verbatim, so with the value
"?" the built URL "https://api.example/v1/search?a=?" contains two `?`
characters, refuting "the URL contains exactly one `?`" as stated for every
query-parameter map. -/
theorem buildFullUrl_two_question_marks :
    countQuestion (buildFullUrl "https://api.example" "/v1/search" [("a", "?")]) = 2 := by
  decide

/-- C6: the request body selected by fetch is the custom body when it is
non-empty; when the custom body is empty it is the client's default
(get_body) value; when both are empty it is the empty string. -/
theorem fetch_body_selection {T : Type} (client : JFetchClient T)
    (transport : Request → CurlOutcome) (json_parse : String → Except String Json)
    (ep : String) (qps : List (String × String)) (chs : List String)
    (custom_body : String) (m : RequestMethod) (lambda : Json → Except Thrown T)
    (hreg : lookupFind client.endpoint_lookup ep = some (m, lambda)) :
    (∀ r, (fetch client transport json_parse ep qps chs custom_body).request = some r →
      r.body = selectBody custom_body client.get_body) ∧
    (custom_body ≠ "" → selectBody custom_body client.get_body = custom_body) ∧
    (custom_body = "" → selectBody custom_body client.get_body = client.get_body) ∧
    (custom_body = "" → client.get_body = "" →
      selectBody custom_body client.get_body = "") := by
  refine ⟨?_, ?_, ?_, ?_⟩
  · intro r hr
    rw [fetch_request_eq client transport json_parse ep qps chs custom_body
      m lambda hreg] at hr
    injection hr with hr2
    rw [← hr2]
  · intro h
    unfold selectBody
    exact if_neg (fun hc => h ((String.isEmpty_iff _).mp hc))
  · intro h
    subst h
    rfl
  · intro h1 h2
    subst h1
    rw [h2]
    rfl

/-- C6 witness: the body-selection theorem applied to the cat-image client
with a non-empty custom body. -/
theorem fetch_body_selection_witness :
    selectBody "custom-payload" catImageFetcher.get_body = "custom-payload" :=
  (fetch_body_selection catImageFetcher (fun _ => CurlOutcome.done 200 "[]")
    (fun _ => Except.error "e") "/v1/images/search" [] [] "custom-payload"
    RequestMethod.GET catImageLambda rfl).2.1 (by decide)

/-- C7: the header list sent with the request is the order-preserving
concatenation of the global headers followed by the custom headers, duplicate
entries retained (the merged length is the sum of the two lengths). -/
theorem fetch_header_merge {T : Type} (client : JFetchClient T)
    (transport : Request → CurlOutcome) (json_parse : String → Except String Json)
    (ep : String) (qps : List (String × String)) (chs : List String) (cb : String)
    (m : RequestMethod) (lambda : Json → Except Thrown T)
    (hreg : lookupFind client.endpoint_lookup ep = some (m, lambda)) :
    mergeHeaders client.global_headers chs = client.global_headers ++ chs ∧
    (mergeHeaders client.global_headers chs).length =
      client.global_headers.length + chs.length ∧
    ∀ r, (fetch client transport json_parse ep qps chs cb).request = some r →
      r.headers = client.global_headers ++ chs := by
  refine ⟨mergeHeaders_eq_append client.global_headers chs,
    by rw [mergeHeaders_eq_append, List.length_append], ?_⟩
  intro r hr
  rw [fetch_request_eq client transport json_parse ep qps chs cb m lambda hreg] at hr
  injection hr with hr2
  rw [← hr2]
  exact mergeHeaders_eq_append client.global_headers chs

/-- C7 witness: the header-merge theorem applied to the cat-image client with
one custom header, including a duplicate check through the length. -/
theorem fetch_header_merge_witness :
    mergeHeaders catImageFetcher.global_headers ["X-Api-Key: abc"] =
      catImageFetcher.global_headers ++ ["X-Api-Key: abc"] :=
  (fetch_header_merge catImageFetcher (fun _ => CurlOutcome.done 200 "[]")
    (fun _ => Except.error "e") "/v1/images/search" [] ["X-Api-Key: abc"] ""
    RequestMethod.GET catImageLambda rfl).1

/-- C8 (amended): the cat-image client registers "/v1/images/search" as GET
with catImageLambda; applied to the JSON array [ { "url": "http://x/cat.jpg" } ]
the lambda returns the result with url "http://x/cat.jpg"; applied to the
empty JSON array it throws JFetchParsingException whose message is
"[ERROR] 'url' field not found in JSON response." (not the shorter text
"url field not found"). -/
theorem cat_image_scenario :
    lookupFind catImageFetcher.endpoint_lookup "/v1/images/search" =
      some (RequestMethod.GET, catImageLambda) ∧
    catImageLambda (Json.arr [Json.obj [("url", Json.str "http://x/cat.jpg")]]) =
      Except.ok ⟨"http://x/cat.jpg"⟩ ∧
    catImageLambda (Json.arr []) =
      Except.error (Thrown.jfetch (JFetchError.parsing
        "[ERROR] \x27url\x27 field not found in JSON response.")) :=
  ⟨rfl, rfl, rfl⟩

/-- C8 counterexample: on the empty JSON array the exception's message is
"[ERROR] 'url' field not found in JSON response.", and neither it nor the
what() string it produces equals the quoted "url field not found". -/
theorem cat_image_error_message_mismatch :
    catImageLambda (Json.arr []) =
      Except.error (Thrown.jfetch (JFetchError.parsing
        "[ERROR] \x27url\x27 field not found in JSON response.")) ∧
    "[ERROR] \x27url\x27 field not found in JSON response." ≠ "url field not found" ∧
    JFetchError.what (JFetchError.parsing
        "[ERROR] \x27url\x27 field not found in JSON response.") ≠
      "url field not found" :=
  ⟨rfl, by decide, by decide⟩

/-- C9: for an endpoint id absent from the lookup table, fetch throws
JFetchEndpointNotFoundException carrying the id before any HttpClient is
constructed: no request descriptor exists, no outbound network call is made
and no parsing lambda is invoked. -/
theorem endpoint_not_found_short_circuits {T : Type} (client : JFetchClient T)
    (transport : Request → CurlOutcome) (json_parse : String → Except String Json)
    (ep : String) (qps : List (String × String)) (chs : List String) (cb : String)
    (hnone : lookupFind client.endpoint_lookup ep = none) :
    (fetch client transport json_parse ep qps chs cb).result =
      Except.error (Thrown.jfetch (JFetchError.endpointNotFound ep)) ∧
    (fetch client transport json_parse ep qps chs cb).request = none ∧
    (fetch client transport json_parse ep qps chs cb).networkCallMade = false ∧
    (fetch client transport json_parse ep qps chs cb).parserInvoked = false := by
  rw [fetch_not_found_eq client transport json_parse ep qps chs cb hnone]
  exact ⟨rfl, rfl, rfl, rfl⟩

/-- C9 witness: fetching an endpoint the cat-image client never registered. -/
theorem endpoint_not_found_short_circuits_witness :
    (fetch catImageFetcher (fun _ => CurlOutcome.done 200 "[]")
        (fun _ => Except.ok (Json.arr [])) "/v9/nope" [] [] "").request = none :=
  (endpoint_not_found_short_circuits catImageFetcher
    (fun _ => CurlOutcome.done 200 "[]") (fun _ => Except.ok (Json.arr []))
    "/v9/nope" [] [] "" rfl).2.1

/-- C10: the transport attaches a request body (CURLOPT_POSTFIELDS) only for
POST, PUT and PATCH requests whose selected body is non-empty; for GET and
DELETE (enumerator DEL, sent on the wire as "DELETE") no body is attached
even when the selected body string is non-empty. -/
theorem outbound_body_attachment (req : Request) :
    ((req.method = RequestMethod.GET ∨ req.method = RequestMethod.DEL) →
      (outboundCall req).attachedBody = none) ∧
    (∀ b, (outboundCall req).attachedBody = some b →
      (req.method = RequestMethod.POST ∨ req.method = RequestMethod.PUT ∨
        req.method = RequestMethod.PATCH) ∧ ¬ req.body.isEmpty ∧ b = req.body) ∧
    ((req.method = RequestMethod.POST ∨ req.method = RequestMethod.PUT ∨
        req.method = RequestMethod.PATCH) → ¬ req.body.isEmpty →
      (outboundCall req).attachedBody = some req.body) ∧
    method_to_string RequestMethod.GET = "GET" ∧
    method_to_string RequestMethod.DEL = "DELETE" := by
  have hred : (outboundCall req).attachedBody =
      if ¬ req.body.isEmpty ∧ (req.method = RequestMethod.POST ∨
        req.method = RequestMethod.PUT ∨ req.method = RequestMethod.PATCH)
      then some req.body else none := rfl
  refine ⟨?_, ?_, ?_, rfl, rfl⟩
  · intro h
    rw [hred, if_neg]
    rintro ⟨-, h3⟩
    rcases h with h | h <;> rw [h] at h3 <;> rcases h3 with h3 | h3 | h3 <;> simp at h3
  · intro b hb
    rw [hred] at hb
    by_cases hc : ¬ req.body.isEmpty ∧ (req.method = RequestMethod.POST ∨
        req.method = RequestMethod.PUT ∨ req.method = RequestMethod.PATCH)
    · rw [if_pos hc] at hb
      injection hb with hb2
      exact ⟨hc.2, hc.1, hb2.symm⟩
    · rw [if_neg hc] at hb
      cases hb
  · intro hm hb
    rw [hred, if_pos ⟨hb, hm⟩]

/-- C10 witness: a GET request with the non-empty selected body "payload"
attaches no body to the outbound call. -/
theorem outbound_body_attachment_witness :
    (outboundCall
      ⟨"https://api.example/x", RequestMethod.GET, [], "payload"⟩).attachedBody =
        none :=
  (outbound_body_attachment
    ⟨"https://api.example/x", RequestMethod.GET, [], "payload"⟩).1 (Or.inl rfl)
